import Mathlib

/-!
Shallow embedding of `src/convert_levels.py`, the converter that turns
puzzle levels from a legacy JSON format into MiniZinc `.dzn` data files.

The per-level converter `convert_level` is embedded as a pure function
from a `Level` record to `Except String LevelOut`; the batch loop of
`main` (with `--force`, no prefix filter and no pre-existing outputs) is
embedded as `processLevels`, where a produced `(name, content)` pair
stands for a written output file.
-/

namespace Railbound

/-- A car record from the JSON level data: `type`, `pos = (row, col)`,
`direction` (fields `car["type"]`, `car["pos"]`, `car["direction"]`). -/
structure Car where
  type : String
  pos : Int × Int
  direction : String
deriving DecidableEq, Repr

/-- One level's raw data: the fields read from the JSON record at the top
of `convert_level` (`board`, `mods`, `mod_nums`, `cars`, `tracks`). -/
structure Level where
  board : List (List Int)
  mods : List (List Int)
  mod_nums : List (List Int)
  cars : List Car
  tracks : Int
deriving DecidableEq, Repr

/-- The `BOARD_TO_TRACK` dict as an association list of key/value pairs,
in source order.  A value of `none` embeds Python's explicit `None`
entries (codes with no placed piece). -/
def BOARD_TO_TRACK_TABLE : List (Int × Option String) := [
  (0, none),
  (1, some "STRAIGHT_RL"),
  (2, some "STRAIGHT_TD"),
  (3, some "STRAIGHT_RL"),
  (4, some "ROCK"),
  (5, some "CORNER_DR"),
  (6, some "CORNER_DL"),
  (7, some "CORNER_TR"),
  (8, some "CORNER_TL"),
  (9, some "SWITCH_L_R_D"),
  (10, some "SWITCH_T_D_R"),
  (11, some "SWITCH_L_R_D"),
  (12, some "SWITCH_T_D_L"),
  (13, some "SWITCH_L_R_T"),
  (14, some "SWITCH_D_T_R"),
  (15, some "SWITCH_R_L_T"),
  (16, some "SWITCH_D_T_L"),
  (17, some "TUNNEL_L"),
  (18, some "TUNNEL_R"),
  (19, some "TUNNEL_D"),
  (20, some "TUNNEL_T"),
  (21, some "STRAIGHT_RL"),
  (22, some "STRAIGHT_RL"),
  (29, some "STRAIGHT_RL"),
  (30, some "STRAIGHT_TD"),
  (31, some "STRAIGHT_TD"),
  (34, some "ROCK"),
  (35, some "ROCK"),
  (36, some "ROCK"),
  (37, some "ROCK")]

/-- Key lookup in the `BOARD_TO_TRACK` dict: `some x` means the key is
present with value `x` (`x = none` embeds Python's explicit `None`
value); `none` means the key is absent.  `BOARD_TO_TRACK.get(v)` is then
`(BOARD_TO_TRACK v).join`. -/
def BOARD_TO_TRACK (v : Int) : Option (Option String) :=
  (BOARD_TO_TRACK_TABLE.find? fun p => p.1 == v).map fun p => p.2

/-- `MOD_SWITCH = 1` -/
def MOD_SWITCH : Int := 1
/-- `MOD_TUNNEL = 2` -/
def MOD_TUNNEL : Int := 2
/-- `MOD_CLOSED_GATE = 3` -/
def MOD_CLOSED_GATE : Int := 3
/-- `MOD_OPEN_GATE = 4` -/
def MOD_OPEN_GATE : Int := 4
/-- `MOD_SWAPPING_TRACK = 5` (DSWITCH) -/
def MOD_SWAPPING_TRACK : Int := 5
/-- `MOD_STATION = 6` -/
def MOD_STATION : Int := 6
/-- `MOD_SWITCH_RAIL = 7` (ESWITCH) -/
def MOD_SWITCH_RAIL : Int := 7
/-- `MOD_STARTING_CAR = 10` -/
def MOD_STARTING_CAR : Int := 10

/-- `DIRECTION_MAP` dict as a partial lookup: a missing key is `none`
(a Python `KeyError` on subscript). -/
def DIRECTION_MAP (s : String) : Option String :=
  if s = "RIGHT" then some "RIGHT"
  else if s = "LEFT" then some "LEFT"
  else if s = "UP" then some "TOP"
  else if s = "DOWN" then some "DOWN"
  else none

/-- `TUNNEL_DIR` dict as a partial lookup. -/
def TUNNEL_DIR (v : Int) : Option String :=
  if v = 17 then some "LEFT"
  else if v = 18 then some "RIGHT"
  else if v = 19 then some "DOWN"
  else if v = 20 then some "TOP"
  else none

/-- Python `s.startswith(pre)`. -/
def strStartsWith (s pre : String) : Bool :=
  pre.data.isPrefixOf s.data

/-- Character-level worker for `strReplace`: scans left to right; at each
position a (nonempty) pattern occurrence is replaced and skipped,
otherwise one character is emitted.  The `Nat` argument is fuel bounding
the number of steps; `strReplace` passes the string length, which
suffices since every step consumes at least one character. -/
def replaceAux (pat rep : List Char) : Nat → List Char → List Char
  | _, [] => []
  | 0, s => s
  | fuel + 1, ch :: rest =>
    if pat.isPrefixOf (ch :: rest) then
      rep ++ replaceAux pat rep fuel ((ch :: rest).drop pat.length)
    else
      ch :: replaceAux pat rep fuel rest

/-- Python `s.replace(pat, rep)`: replace every non-overlapping occurrence
of `pat`, left to right.  (Python's behaviour for an empty pattern —
inserting `rep` between all characters — is not modelled; the script only
ever calls `replace` with the pattern `"SWITCH_"`.) -/
def strReplace (s pat rep : String) : String :=
  if pat.data = [] then s
  else ⟨replaceAux pat.data rep.data s.data.length s.data⟩

/-- Inner loop of the target scan: first index (counting from `c`) in the
row whose value is `3`, the ending-track code (`if val == 3: ... break`). -/
def findColFrom : Nat → List Int → Option Nat
  | _, [] => none
  | c, v :: rest => if v = 3 then some c else findColFrom (c + 1) rest

/-- Outer loop of the target scan, rows counted from `r`: the Python
`for r, row in enumerate(board)` loop that breaks at the first row where
a target was found, recording `(r + 1, c + 1)`. -/
def findTargetFrom : Nat → List (List Int) → Option (Nat × Nat)
  | _, [] => none
  | r, row :: rest =>
    match findColFrom 0 row with
    | some c => some (r + 1, c + 1)
    | none => findTargetFrom (r + 1) rest

/-- The "Find Target Cell" pass of `convert_level`. -/
def findTarget (board : List (List Int)) : Option (Nat × Nat) :=
  findTargetFrom 0 board

/-- The "Collect Train and Decoy Information" loop of `convert_level`:
walks the car list in order; a `NORMAL` car is appended to the trains
list and a `DECOY` car to the decoys list, as
`(r + 1, c + 1, DIRECTION_MAP[direction])`; any other kind is passed
over.  A direction missing from `DIRECTION_MAP` is Python's `KeyError`,
embedded as `Except.error`. -/
def collectCars : List Car → Except String (List (Int × Int × String) × List (Int × Int × String))
  | [] => .ok ([], [])
  | car :: rest =>
    if car.type = "NORMAL" then
      match DIRECTION_MAP car.direction with
      | none => .error ("KeyError: " ++ car.direction)
      | some d =>
        match collectCars rest with
        | .error e => .error e
        | .ok (ts, ds) => .ok ((car.pos.1 + 1, car.pos.2 + 1, d) :: ts, ds)
    else if car.type = "DECOY" then
      match DIRECTION_MAP car.direction with
      | none => .error ("KeyError: " ++ car.direction)
      | some d =>
        match collectCars rest with
        | .error e => .error e
        | .ok (ts, ds) => .ok (ts, (car.pos.1 + 1, car.pos.2 + 1, d) :: ds)
    else collectCars rest

/-- `g[r][c]` for the integer grids (in the claims below, indices are
always constrained to be in bounds, where this agrees with Python's
subscripting). -/
def cellVal (g : List (List Int)) (r c : Nat) : Int :=
  (g.getD r []).getD c 0

/-- The row-major cell index set of a grid: all `(r, c)` produced by
`for r, row in enumerate(g): for c, val in enumerate(row)`. -/
def gridCells (g : List (List Int)) : List (Nat × Nat) :=
  (List.range g.length).flatMap fun r =>
    (List.range (g.getD r []).length).map fun c => (r, c)

/-- The body of the "Process Grid for Initial Pieces and Switches" loop
for one cell: returns the `init_pos` entry and the `dswitches` entry the
cell contributes (each possibly absent).  Tunnel-modified cells are
skipped; `BOARD_TO_TRACK.get` returning `None` skips the cell; a
swapping-track or switch-rail modifier on a `SWITCH_`-token rewrites the
prefix to `DSWITCH_`/`ESWITCH_` and registers the cell when its
`mod_num` is positive. -/
def processCell (r c : Nat) (board_val mod_val mod_num : Int) :
    Option (Nat × Nat × String) × Option (Nat × Nat × Int) :=
  if mod_val = MOD_TUNNEL then (none, none)
  else
    match (BOARD_TO_TRACK board_val).join with
    | none => (none, none)
    | some track_type =>
      if (mod_val = MOD_SWAPPING_TRACK ∨ mod_val = MOD_SWITCH_RAIL)
          ∧ strStartsWith track_type "SWITCH_" = true then
        (some (r + 1, c + 1,
          if mod_val = MOD_SWAPPING_TRACK then strReplace track_type "SWITCH_" "DSWITCH_"
          else strReplace track_type "SWITCH_" "ESWITCH_"),
         if 0 < mod_num then some (r + 1, c + 1, mod_num) else none)
      else (some (r + 1, c + 1, track_type), none)

/-- The `init_pos` list accumulated by the grid loop (row-major order). -/
def initPosList (board mods mod_nums : List (List Int)) : List (Nat × Nat × String) :=
  (gridCells board).filterMap fun rc =>
    (processCell rc.1 rc.2 (cellVal board rc.1 rc.2) (cellVal mods rc.1 rc.2)
      (cellVal mod_nums rc.1 rc.2)).1

/-- The `dswitches` list accumulated by the grid loop (row-major order). -/
def dswitchList (board mods mod_nums : List (List Int)) : List (Nat × Nat × Int) :=
  (gridCells board).filterMap fun rc =>
    (processCell rc.1 rc.2 (cellVal board rc.1 rc.2) (cellVal mods rc.1 rc.2)
      (cellVal mod_nums rc.1 rc.2)).2

/-- The "Collect and Pair Tunnels" scan: every cell whose modifier is
`MOD_TUNNEL` and whose board code is a `TUNNEL_DIR` key, recorded in
row-major order as `(tunnel_num, (r + 1, c + 1), board_val)`. -/
def tunnelCells (board mods mod_nums : List (List Int)) : List (Int × (Nat × Nat) × Int) :=
  (gridCells board).filterMap fun rc =>
    if cellVal mods rc.1 rc.2 = MOD_TUNNEL ∧ (TUNNEL_DIR (cellVal board rc.1 rc.2)).isSome = true then
      some (cellVal mod_nums rc.1 rc.2, (rc.1 + 1, rc.2 + 1), cellVal board rc.1 rc.2)
    else none

/-- `tunnel_endpoints[k]`: the endpoints of tunnel group `k` in discovery
(row-major) order, as `(pos, board_val)` pairs. -/
def tunnelEndpoints (board mods mod_nums : List (List Int)) (k : Int) :
    List ((Nat × Nat) × Int) :=
  (tunnelCells board mods mod_nums).filterMap fun e =>
    if e.1 = k then some e.2 else none

/-- `sorted(tunnel_endpoints.keys())`: the distinct group IDs present, in
ascending order. -/
def tunnelKeys (board mods mod_nums : List (List Int)) : List Int :=
  List.insertionSort (· ≤ ·) ((tunnelCells board mods mod_nums).map (fun e => e.1)).dedup

/-- The record tunnel group `k` contributes: one paired record
`(r1, c1, TUNNEL_DIR[val1], r2, c2, TUNNEL_DIR[val2])` when the group has
exactly two endpoints, nothing otherwise (`if len(endpoints) == 2`). -/
def pairRecord (board mods mod_nums : List (List Int)) (k : Int) :
    Option (Nat × Nat × String × Nat × Nat × String) :=
  match tunnelEndpoints board mods mod_nums k with
  | [((r1, c1), v1), ((r2, c2), v2)] =>
    some (r1, c1, (TUNNEL_DIR v1).getD "", r2, c2, (TUNNEL_DIR v2).getD "")
  | _ => none

/-- The `tunnel_pairs` list: groups in ascending ID order, one record per
group with exactly two endpoints. -/
def tunnelPairs (board mods mod_nums : List (List Int)) :
    List (Nat × Nat × String × Nat × Nat × String) :=
  (tunnelKeys board mods mod_nums).filterMap (pairRecord board mods mod_nums)

/-- The `gates` list: cells of the `mods` grid tagged closed- or
open-gate, with `str(mod_val == MOD_OPEN_GATE).lower()` as the flag. -/
def gatesList (mods mod_nums : List (List Int)) : List (Nat × Nat × Int × String) :=
  (gridCells mods).filterMap fun rc =>
    if cellVal mods rc.1 rc.2 = MOD_CLOSED_GATE ∨ cellVal mods rc.1 rc.2 = MOD_OPEN_GATE then
      some (rc.1 + 1, rc.2 + 1, cellVal mod_nums rc.1 rc.2,
        if cellVal mods rc.1 rc.2 = MOD_OPEN_GATE then "true" else "false")
    else none

/-- The `activations` list: `MOD_SWITCH` cells of the `mods` grid with a
positive `mod_num` (the `elif` branch; `MOD_SWITCH = 1` is never a gate
code, so the `elif` guard reduces to its own condition). -/
def activationsList (mods mod_nums : List (List Int)) : List (Nat × Nat × Int) :=
  (gridCells mods).filterMap fun rc =>
    if cellVal mods rc.1 rc.2 = MOD_SWITCH ∧ 0 < cellVal mod_nums rc.1 rc.2 then
      some (rc.1 + 1, rc.2 + 1, cellVal mod_nums rc.1 rc.2)
    else none

/-- The `stations` list: `MOD_STATION` cells of the `mods` grid, with the
0-based train ID shifted to 1-based. -/
def stationsList (mods mod_nums : List (List Int)) : List (Nat × Nat × Int) :=
  (gridCells mods).filterMap fun rc =>
    if cellVal mods rc.1 rc.2 = MOD_STATION then
      some (rc.1 + 1, rc.2 + 1, cellVal mod_nums rc.1 rc.2 + 1)
    else none

/-- The structured content of one `.dzn` record, before formatting: the
values interpolated by the "Assemble .dzn Content" section. -/
structure LevelOut where
  W : Nat
  H : Nat
  tracks : Int
  target : Nat × Nat
  trains : List (Int × Int × String)
  decoys : List (Int × Int × String)
  init_pos : List (Nat × Nat × String)
  tunnel_pairs : List (Nat × Nat × String × Nat × Nat × String)
  gates : List (Nat × Nat × Int × String)
  activations : List (Nat × Nat × Int)
  dswitches : List (Nat × Nat × Int)
  stations : List (Nat × Nat × Int)
deriving DecidableEq, Repr

/-- `convert_level(level_name, level_data)` up to (but not including)
string assembly: either the `ValueError` raised when no target cell
exists, a `KeyError` from a car-direction lookup, or the structured
record.  The target scan runs before the car loop, as in the source. -/
def convert_level (level_name : String) (l : Level) : Except String LevelOut :=
  match findTarget l.board with
  | none => .error ("No target found for level " ++ level_name)
  | some target =>
    match collectCars l.cars with
    | .error e => .error e
    | .ok (trains, decoys) =>
      .ok
        { W := (l.board.getD 0 []).length
          H := l.board.length
          tracks := l.tracks
          target := target
          trains := trains
          decoys := decoys
          init_pos := initPosList l.board l.mods l.mod_nums
          tunnel_pairs := tunnelPairs l.board l.mods l.mod_nums
          gates := gatesList l.mods l.mod_nums
          activations := activationsList l.mods l.mod_nums
          dswitches := dswitchList l.board l.mods l.mod_nums
          stations := stationsList l.mods l.mod_nums }

/-- Inline tuple `f"({r},{c},{d})"` for trains and decoys. -/
def fmtCarTuple (e : Int × Int × String) : String :=
  "(" ++ toString e.1 ++ "," ++ toString e.2.1 ++ "," ++ e.2.2 ++ ")"

/-- Line `f"({r},{c},{num}),"` for activations and dswitches. -/
def fmtNumLine (e : Nat × Nat × Int) : String :=
  "(" ++ toString e.1 ++ "," ++ toString e.2.1 ++ "," ++ toString e.2.2 ++ "),"

/-- The "Assemble .dzn Content" section: builds the `lines` list exactly
as the source does and joins it with newlines, with a trailing newline. -/
def renderLevel (o : LevelOut) : String :=
  let header := [
    "W=" ++ toString o.W ++ ";",
    "H=" ++ toString o.H ++ ";",
    "",
    "MAX_TIME=W*H;",
    "MAX_TRACKS=" ++ toString o.tracks ++ ";",
    "",
    "TARGET=(" ++ toString o.target.1 ++ "," ++ toString o.target.2 ++ ");",
    ""]
  let trainsLines :=
    if o.trains.isEmpty then ["TRAINS=[];"]
    else ["TRAINS=[" ++ String.intercalate "," (o.trains.map fmtCarTuple) ++ "];"]
  let decoysLines :=
    if o.decoys.isEmpty then ["DECOYS=[];"]
    else ["DECOYS=[" ++ String.intercalate "," (o.decoys.map fmtCarTuple) ++ "];"]
  let initLines :=
    if o.init_pos.isEmpty then ["INIT_POS=[];"]
    else ["INIT_POS=["] ++
      (o.init_pos.map fun e =>
        "(" ++ toString e.1 ++ "," ++ toString e.2.1 ++ "," ++ e.2.2 ++ "),") ++ ["];"]
  let tunnelLines :=
    if o.tunnel_pairs.isEmpty then ["TUNNEL_PAIRS=[];"]
    else ["TUNNEL_PAIRS=["] ++
      (o.tunnel_pairs.map fun e =>
        "  (" ++ toString e.1 ++ ", " ++ toString e.2.1 ++ ", " ++ e.2.2.1 ++ ", " ++
          toString e.2.2.2.1 ++ ", " ++ toString e.2.2.2.2.1 ++ ", " ++ e.2.2.2.2.2 ++ "),") ++
      ["];"]
  let gatesLines :=
    if o.gates.isEmpty then ["GATES=[];"]
    else ["GATES=["] ++
      (o.gates.map fun e =>
        "(" ++ toString e.1 ++ "," ++ toString e.2.1 ++ "," ++ toString e.2.2.1 ++ "," ++
          e.2.2.2 ++ "),") ++ ["];"]
  let activLines :=
    if o.activations.isEmpty then ["ACTIVATIONS=[];"]
    else ["ACTIVATIONS=["] ++ (o.activations.map fmtNumLine) ++ ["];"]
  let dswLines :=
    if o.dswitches.isEmpty then ["DSWITCHES=[];"]
    else ["DSWITCHES=["] ++ (o.dswitches.map fmtNumLine) ++ ["];"]
  let stationLines :=
    if o.stations.isEmpty then ["STATIONS=[];"]
    else ["STATIONS=["] ++
      (o.stations.map fun e =>
        "  (" ++ toString e.1 ++ "," ++ toString e.2.1 ++ "," ++ toString e.2.2 ++ "),") ++
      ["];"]
  String.intercalate "\n"
    (header ++ trainsLines ++ decoysLines ++ [""] ++ initLines ++ tunnelLines ++ [""] ++
      gatesLines ++ activLines ++ [""] ++ dswLines ++ stationLines) ++ "\n"

/-- The full per-level conversion to the output text. -/
def convertLevelStr (level_name : String) (l : Level) : Except String String :=
  (convert_level level_name l).map renderLevel

/-- The per-level loop of `main` in the `--force` configuration with no
prefix filter and no pre-existing output files: names starting with `"#"`
are skipped, a failing conversion is reported and skipped (no file
written) and the loop continues, a succeeding conversion contributes one
written `(name, content)` output. -/
def processLevels : List (String × Level) → List (String × String)
  | [] => []
  | (level_name, l) :: rest =>
    if strStartsWith level_name "#" = true then processLevels rest
    else
      match convert_level level_name l with
      | .ok out => (level_name, renderLevel out) :: processLevels rest
      | .error _ => processLevels rest

/-- The spec's description of the trains list: the `NORMAL` cars in input
order, each as 1-based position plus translated direction. -/
def specTrains (cars : List Car) : List (Int × Int × String) :=
  cars.filterMap fun car =>
    if car.type = "NORMAL" then
      (DIRECTION_MAP car.direction).map fun d => (car.pos.1 + 1, car.pos.2 + 1, d)
    else none

/-- The spec's description of the decoys list: the `DECOY` cars in input
order, each as 1-based position plus translated direction. -/
def specDecoys (cars : List Car) : List (Int × Int × String) :=
  cars.filterMap fun car =>
    if car.type = "DECOY" then
      (DIRECTION_MAP car.direction).map fun d => (car.pos.1 + 1, car.pos.2 + 1, d)
    else none

theorem findColFrom_eq_none_iff (row : List Int) (c0 : Nat) :
    findColFrom c0 row = none ↔ ∀ v ∈ row, v ≠ 3 := by
  induction row generalizing c0 with
  | nil => simp [findColFrom]
  | cons v rest ih =>
    simp only [findColFrom]
    by_cases h : v = 3
    · simp [h]
    · rw [if_neg h, ih (c0 + 1)]
      simp [List.forall_mem_cons, h]

theorem findTargetFrom_eq_none_iff (board : List (List Int)) (r0 : Nat) :
    findTargetFrom r0 board = none ↔ ∀ row ∈ board, ∀ v ∈ row, v ≠ 3 := by
  induction board generalizing r0 with
  | nil => simp [findTargetFrom]
  | cons row rest ih =>
    simp only [findTargetFrom]
    cases hcol : findColFrom 0 row with
    | some c =>
      simp only [List.forall_mem_cons]
      constructor
      · intro h; exact absurd h (by simp)
      · rintro ⟨h1, _⟩
        have := (findColFrom_eq_none_iff row 0).mpr h1
        rw [hcol] at this
        exact absurd this (by simp)
    | none =>
      rw [ih (r0 + 1)]
      have hrow := (findColFrom_eq_none_iff row 0).mp hcol
      simp only [List.forall_mem_cons]
      exact ⟨fun h => ⟨hrow, h⟩, fun h => h.2⟩

theorem forall_getD_of_forall_mem {row : List Int} (h : ∀ v ∈ row, v ≠ 3)
    {i : Nat} (hi : i < row.length) : row.getD i 0 ≠ 3 := by
  rw [List.getD_eq_getElem row 0 hi]
  exact h _ (List.getElem_mem hi)

theorem forall_mem_of_forall_getD {row : List Int}
    (h : ∀ i, i < row.length → row.getD i 0 ≠ 3) : ∀ v ∈ row, v ≠ 3 := by
  intro v hv
  obtain ⟨i, hi, rfl⟩ := List.mem_iff_getElem.mp hv
  have := h i hi
  rwa [List.getD_eq_getElem row 0 hi] at this

theorem findColFrom_spec (row : List Int) : ∀ c0 c, c < row.length →
    row.getD c 0 = 3 → (∀ i, i < c → row.getD i 0 ≠ 3) →
    findColFrom c0 row = some (c0 + c) := by
  induction row with
  | nil => intro c0 c hc; simp at hc
  | cons v rest ih =>
    intro c0 c hc hval hfirst
    cases c with
    | zero =>
      simp only [List.getD_cons_zero] at hval
      simp [findColFrom, hval]
    | succ c =>
      have hv : v ≠ 3 := by
        have := hfirst 0 (Nat.succ_pos _)
        simpa [List.getD_cons_zero] using this
      simp only [findColFrom, if_neg hv]
      have := ih (c0 + 1) c (by simpa using hc)
        (by simpa [List.getD_cons_succ] using hval)
        (fun i hi => by
          have := hfirst (i + 1) (Nat.succ_lt_succ hi)
          simpa [List.getD_cons_succ] using this)
      rw [this]
      congr 1
      omega

theorem findTargetFrom_spec (board : List (List Int)) : ∀ r0 r c,
    r < board.length →
    c < (board.getD r []).length →
    (board.getD r []).getD c 0 = 3 →
    (∀ r', r' < r → ∀ i, i < (board.getD r' []).length →
      (board.getD r' []).getD i 0 ≠ 3) →
    (∀ i, i < c → (board.getD r []).getD i 0 ≠ 3) →
    findTargetFrom r0 board = some (r0 + r + 1, c + 1) := by
  induction board with
  | nil => intro r0 r c hr; simp at hr
  | cons row rest ih =>
    intro r0 r c hr hc hval hrows hcols
    cases r with
    | zero =>
      have hcol : findColFrom 0 row = some c := by
        have := findColFrom_spec row 0 c (by simpa [List.getD_cons_zero] using hc)
          (by simpa [List.getD_cons_zero] using hval)
          (fun i hi => by
            have := hcols i hi
            simpa [List.getD_cons_zero] using this)
        simpa using this
      simp [findTargetFrom, hcol]
    | succ r =>
      have hnone : findColFrom 0 row = none := by
        rw [findColFrom_eq_none_iff]
        apply forall_mem_of_forall_getD
        intro i hi
        have := hrows 0 (Nat.succ_pos _) i (by simpa [List.getD_cons_zero] using hi)
        simpa [List.getD_cons_zero] using this
      simp only [findTargetFrom, hnone]
      have := ih (r0 + 1) r c (by simpa using hr)
        (by simpa [List.getD_cons_succ] using hc)
        (by simpa [List.getD_cons_succ] using hval)
        (fun r' hr' i hi => by
          have := hrows (r' + 1) (Nat.succ_lt_succ hr') i
            (by simpa [List.getD_cons_succ] using hi)
          simpa [List.getD_cons_succ] using this)
        (fun i hi => by
          have := hcols i hi
          simpa [List.getD_cons_succ] using this)
      rw [this]
      congr 2
      omega

theorem collectCars_eq_ok (cars : List Car)
    (h : ∀ car ∈ cars, (car.type = "NORMAL" ∨ car.type = "DECOY") →
      (DIRECTION_MAP car.direction).isSome = true) :
    collectCars cars = .ok (specTrains cars, specDecoys cars) := by
  induction cars with
  | nil => rfl
  | cons car rest ih =>
    have hrest : ∀ c ∈ rest, (c.type = "NORMAL" ∨ c.type = "DECOY") →
        (DIRECTION_MAP c.direction).isSome = true :=
      fun c hc => h c (List.mem_cons_of_mem _ hc)
    have ihr := ih hrest
    have hnd : ("NORMAL" : String) ≠ "DECOY" := by decide
    by_cases ht : car.type = "NORMAL"
    · obtain ⟨d, hd⟩ := Option.isSome_iff_exists.mp
        (h car (List.mem_cons_self _ _) (Or.inl ht))
      simp [collectCars, specTrains, specDecoys, ht, hd, ihr, hnd]
    · by_cases ht2 : car.type = "DECOY"
      · obtain ⟨d, hd⟩ := Option.isSome_iff_exists.mp
          (h car (List.mem_cons_self _ _) (Or.inr ht2))
        simp [collectCars, specTrains, specDecoys, ht, ht2, hd, ihr]
      · simp [collectCars, specTrains, specDecoys, ht, ht2, ihr]

theorem collectCars_isError (cars : List Car) (car : Car) (hmem : car ∈ cars)
    (ht : car.type = "NORMAL" ∨ car.type = "DECOY")
    (hd : DIRECTION_MAP car.direction = none) :
    ∃ e, collectCars cars = .error e := by
  induction cars with
  | nil => cases hmem
  | cons hd2 rest ih =>
    rcases List.mem_cons.mp hmem with rfl | hmem2
    · rcases ht with ht | ht
      · refine ⟨"KeyError: " ++ car.direction, ?_⟩
        simp [collectCars, ht, hd]
      · refine ⟨"KeyError: " ++ car.direction, ?_⟩
        have : car.type ≠ "NORMAL" := by rw [ht]; decide
        simp [collectCars, ht, this, hd]
    · obtain ⟨e, he⟩ := ih hmem2
      by_cases h1 : hd2.type = "NORMAL"
      · cases hdir : DIRECTION_MAP hd2.direction with
        | none => exact ⟨"KeyError: " ++ hd2.direction, by simp [collectCars, h1, hdir]⟩
        | some d => exact ⟨e, by simp [collectCars, h1, hdir, he]⟩
      · by_cases h2 : hd2.type = "DECOY"
        · cases hdir : DIRECTION_MAP hd2.direction with
          | none => exact ⟨"KeyError: " ++ hd2.direction, by simp [collectCars, h1, h2, hdir]⟩
          | some d => exact ⟨e, by simp [collectCars, h1, h2, hdir, he]⟩
        · exact ⟨e, by simp [collectCars, h1, h2, he]⟩

theorem mem_gridCells {g : List (List Int)} {r c : Nat} :
    (r, c) ∈ gridCells g ↔ r < g.length ∧ c < (g.getD r []).length := by
  simp only [gridCells, List.mem_flatMap, List.mem_map, List.mem_range]
  constructor
  · rintro ⟨a, ha, b, hb, heq⟩
    cases heq
    exact ⟨ha, hb⟩
  · rintro ⟨h1, h2⟩
    exact ⟨r, h1, c, h2, rfl⟩

theorem processCell_fst_shape {r c : Nat} {bv mv mn : Int} {e : Nat × Nat × String}
    (h : (processCell r c bv mv mn).1 = some e) : e.1 = r + 1 ∧ e.2.1 = c + 1 := by
  unfold processCell at h
  split at h
  · simp at h
  · split at h
    · simp at h
    · split at h <;> (simp at h; simp [← h])

theorem processCell_snd_shape {r c : Nat} {bv mv mn : Int} {e : Nat × Nat × Int}
    (h : (processCell r c bv mv mn).2 = some e) : e.1 = r + 1 ∧ e.2.1 = c + 1 := by
  unfold processCell at h
  split at h
  · simp at h
  · split at h
    · simp at h
    · split at h
      · simp only at h
        split at h
        · simp at h; simp [← h]
        · simp at h
      · simp at h

theorem processCell_fst_none {r c : Nat} {bv mv mn : Int}
    (h : (BOARD_TO_TRACK bv).join = none) :
    (processCell r c bv mv mn).1 = none := by
  unfold processCell
  split
  · rfl
  · rw [h]

theorem switch_token_inv {v : Int} {tt : String}
    (h : (BOARD_TO_TRACK v).join = some tt)
    (hsw : strStartsWith tt "SWITCH_" = true) :
    ∃ rest, tt = "SWITCH_" ++ rest ∧
      strReplace tt "SWITCH_" "DSWITCH_" = "DSWITCH_" ++ rest ∧
      strReplace tt "SWITCH_" "ESWITCH_" = "ESWITCH_" ++ rest := by
  unfold BOARD_TO_TRACK at h
  cases hf : BOARD_TO_TRACK_TABLE.find? (fun p => p.1 == v) with
  | none => rw [hf] at h; exact Option.noConfusion h
  | some p =>
    rw [hf] at h
    have hp2 : p.2 = some tt := h
    have hmem := List.mem_of_find?_eq_some hf
    fin_cases hmem <;>
      first
        | exact Option.noConfusion hp2
        | (injection hp2 with h2
           subst h2
           first
             | exact absurd hsw (by decide)
             | exact ⟨"L_R_D", by decide, by decide, by decide⟩
             | exact ⟨"T_D_R", by decide, by decide, by decide⟩
             | exact ⟨"T_D_L", by decide, by decide, by decide⟩
             | exact ⟨"L_R_T", by decide, by decide, by decide⟩
             | exact ⟨"D_T_R", by decide, by decide, by decide⟩
             | exact ⟨"R_L_T", by decide, by decide, by decide⟩
             | exact ⟨"D_T_L", by decide, by decide, by decide⟩)

theorem processLevels_cons (level_name : String) (l : Level)
    (rest : List (String × Level)) :
    processLevels ((level_name, l) :: rest) =
      if strStartsWith level_name "#" = true then processLevels rest
      else
        match convert_level level_name l with
        | .ok out => (level_name, renderLevel out) :: processLevels rest
        | .error _ => processLevels rest := rfl

theorem processLevels_skip (level_name : String) (l : Level)
    (rest : List (String × Level)) (h : ∃ e, convert_level level_name l = .error e) :
    processLevels ((level_name, l) :: rest) = processLevels rest := by
  obtain ⟨e, he⟩ := h
  rw [processLevels_cons]
  by_cases hs : strStartsWith level_name "#" = true
  · rw [if_pos hs]
  · rw [if_neg hs, he]

/-- Claim C1, counterexample: on the level with board `[[3,17,18]]`, mods
`[[0,2,2]]`, mod_nums `[[0,1,1]]`, tunnel group 1 has the two endpoints
`((1,2),17)` and `((1,3),18)`, whose own codes map to LEFT and RIGHT; the
emitted record carries each mouth's own direction, `(1,2,LEFT,1,3,RIGHT)`,
not the claimed swapped record `(1,2,RIGHT,1,3,LEFT)`. -/
theorem claim_C1_counterexample :
    tunnelEndpoints [[3, 17, 18]] [[0, 2, 2]] [[0, 1, 1]] 1 = [((1, 2), 17), ((1, 3), 18)]
    ∧ TUNNEL_DIR 17 = some "LEFT"
    ∧ TUNNEL_DIR 18 = some "RIGHT"
    ∧ tunnelPairs [[3, 17, 18]] [[0, 2, 2]] [[0, 1, 1]] = [(1, 2, "LEFT", 1, 3, "RIGHT")]
    ∧ (1, 2, "RIGHT", 1, 3, "LEFT") ∉ tunnelPairs [[3, 17, 18]] [[0, 2, 2]] [[0, 1, 1]] :=
  ⟨by decide, by decide, by decide, by decide, by decide⟩

/-- Claim C1 (amended): for every tunnel group ID whose endpoint list
(row-major) is exactly `[(pos1, v1), (pos2, v2)]`, the emitted tunnel-pair
record is `(pos1, dir v1, pos2, dir v2)` — each mouth's recorded exit
direction is derived from that mouth's own board code. -/
theorem claim_C1_amended (board mods mod_nums : List (List Int)) (k : Int)
    (r1 c1 r2 c2 : Nat) (v1 v2 : Int) (d1 d2 : String)
    (he : tunnelEndpoints board mods mod_nums k = [((r1, c1), v1), ((r2, c2), v2)])
    (h1 : TUNNEL_DIR v1 = some d1) (h2 : TUNNEL_DIR v2 = some d2) :
    (r1, c1, d1, r2, c2, d2) ∈ tunnelPairs board mods mod_nums := by
  have hmem1 : ((r1, c1), v1) ∈ tunnelEndpoints board mods mod_nums k := by
    rw [he]; exact List.mem_cons_self _ _
  obtain ⟨e, hecells, hif⟩ := List.mem_filterMap.mp hmem1
  have hek : e.1 = k := by
    by_contra hne
    rw [if_neg hne] at hif
    exact Option.noConfusion hif
  have hkey : k ∈ tunnelKeys board mods mod_nums := by
    unfold tunnelKeys
    rw [List.mem_insertionSort, List.mem_dedup]
    exact List.mem_map.mpr ⟨e, hecells, hek⟩
  have hrec : pairRecord board mods mod_nums k = some (r1, c1, d1, r2, c2, d2) := by
    unfold pairRecord
    rw [he]
    simp [h1, h2]
  exact List.mem_filterMap.mpr ⟨k, hkey, hrec⟩

/-- Witness for claim C1 (amended), at the concrete level of the
counterexample. -/
theorem claim_C1_witness :
    (1, 2, "LEFT", 1, 3, "RIGHT") ∈ tunnelPairs [[3, 17, 18]] [[0, 2, 2]] [[0, 1, 1]] :=
  claim_C1_amended [[3, 17, 18]] [[0, 2, 2]] [[0, 1, 1]] 1 1 2 1 3 17 18 "LEFT" "RIGHT"
    (by decide) (by decide) (by decide)

/-- Claim C2: for well-formed input (matching grid shapes, known car
directions), the conversion fails if and only if no board cell holds the
target code 3; the only error it produces is the one naming the level;
and a failing level contributes no output while the batch continues with
the remaining levels unchanged. -/
theorem claim_C2 (level_name : String) (l : Level)
    (hm1 : l.mods.length = l.board.length)
    (hm2 : l.mod_nums.length = l.board.length)
    (hm3 : ∀ r, r < l.board.length →
      (l.mods.getD r []).length = (l.board.getD r []).length)
    (hm4 : ∀ r, r < l.board.length →
      (l.mod_nums.getD r []).length = (l.board.getD r []).length)
    (hcars : ∀ car ∈ l.cars, (car.type = "NORMAL" ∨ car.type = "DECOY") →
      (DIRECTION_MAP car.direction).isSome = true) :
    ((∃ e, convert_level level_name l = .error e) ↔
      ∀ row ∈ l.board, ∀ v ∈ row, v ≠ 3)
    ∧ (convert_level level_name l = .error ("No target found for level " ++ level_name)
        ∨ ∃ out, convert_level level_name l = .ok out)
    ∧ (∀ rest, (∃ e, convert_level level_name l = .error e) →
        processLevels ((level_name, l) :: rest) = processLevels rest) := by
  have hcc := collectCars_eq_ok l.cars hcars
  refine ⟨?_, ?_, fun rest h => processLevels_skip level_name l rest h⟩
  · cases hft : findTarget l.board with
    | none =>
      have herr : convert_level level_name l =
          .error ("No target found for level " ++ level_name) := by
        unfold convert_level
        rw [hft]
      exact ⟨fun _ => (findTargetFrom_eq_none_iff l.board 0).mp hft, fun _ => ⟨_, herr⟩⟩
    | some t =>
      have hok : ∃ out, convert_level level_name l = .ok out := by
        unfold convert_level
        rw [hft, hcc]
        exact ⟨_, rfl⟩
      obtain ⟨out, hok⟩ := hok
      constructor
      · rintro ⟨e, he⟩
        rw [hok] at he
        exact Except.noConfusion he
      · intro hall
        have hnone := (findTargetFrom_eq_none_iff l.board 0).mpr hall
        have hft2 : findTargetFrom 0 l.board = some t := hft
        rw [hft2] at hnone
        exact Option.noConfusion hnone
  · cases hft : findTarget l.board with
    | none =>
      have herr : convert_level level_name l =
          .error ("No target found for level " ++ level_name) := by
        unfold convert_level
        rw [hft]
      exact Or.inl herr
    | some t =>
      refine Or.inr ?_
      unfold convert_level
      rw [hft, hcc]
      exact ⟨_, rfl⟩

/-- Witness for claim C2, at a concrete level with no target cell. -/
theorem claim_C2_witness :
    (∃ e, convert_level "9-9" ⟨[[0]], [[0]], [[0]], [], 1⟩ = .error e) ↔
      ∀ row ∈ ([[0]] : List (List Int)), ∀ v ∈ row, v ≠ 3 :=
  (claim_C2 "9-9" ⟨[[0]], [[0]], [[0]], [], 1⟩ (by decide) (by decide) (by decide)
    (by decide) (by decide)).1

/-- Claim C3: if cell `(r, c)` holds board code 3 and every cell before it
in the row-major scan does not, the conversion succeeds (given translatable
car directions) and emits target `(r + 1, c + 1)`. -/
theorem claim_C3 (level_name : String) (l : Level) (r c : Nat)
    (hr : r < l.board.length)
    (hc : c < (l.board.getD r []).length)
    (hval : (l.board.getD r []).getD c 0 = 3)
    (hfirst : ∀ r', r' < l.board.length → ∀ c', c' < (l.board.getD r' []).length →
      (r' < r ∨ (r' = r ∧ c' < c)) → (l.board.getD r' []).getD c' 0 ≠ 3)
    (hcars : ∀ car ∈ l.cars, (car.type = "NORMAL" ∨ car.type = "DECOY") →
      (DIRECTION_MAP car.direction).isSome = true) :
    ∃ out, convert_level level_name l = .ok out ∧ out.target = (r + 1, c + 1) := by
  have hft : findTargetFrom 0 l.board = some (0 + r + 1, c + 1) :=
    findTargetFrom_spec l.board 0 r c hr hc hval
      (fun r' hr' i hi => hfirst r' (lt_trans hr' hr) i hi (Or.inl hr'))
      (fun i hi => hfirst r hr i (lt_trans hi hc) (Or.inr ⟨rfl, hi⟩))
  rw [Nat.zero_add] at hft
  have hft2 : findTarget l.board = some (r + 1, c + 1) := hft
  have hcc := collectCars_eq_ok l.cars hcars
  unfold convert_level
  rw [hft2, hcc]
  exact ⟨_, rfl, rfl⟩

/-- Witness for claim C3, at a concrete level whose first target cell in
scan order is `(0, 1)`. -/
theorem claim_C3_witness :
    ∃ out, convert_level "9-8" ⟨[[0, 3]], [[0, 0]], [[0, 0]], [], 1⟩ = .ok out
      ∧ out.target = (1, 2) :=
  claim_C3 "9-8" ⟨[[0, 3]], [[0, 0]], [[0, 0]], [], 1⟩ 0 1 (by decide) (by decide)
    (by decide) (by decide) (by decide)

/-- Claim C4: a cell whose modifier is the swapping-track (5) or
switch-rail (7) code and whose translated token is a `SWITCH_` variant
gets its prefix rewritten to `DSWITCH_` or `ESWITCH_` respectively, is
always placed in the initial-placement list, and is registered in the
toggled-switch list with its group ID exactly when that ID is positive. -/
theorem claim_C4 (board mods mod_nums : List (List Int)) (r c : Nat) (tt : String)
    (hr : r < board.length) (hc : c < (board.getD r []).length)
    (hmod : cellVal mods r c = MOD_SWAPPING_TRACK ∨ cellVal mods r c = MOD_SWITCH_RAIL)
    (htt : (BOARD_TO_TRACK (cellVal board r c)).join = some tt)
    (hsw : strStartsWith tt "SWITCH_" = true) :
    ∃ rest, tt = "SWITCH_" ++ rest
      ∧ (r + 1, c + 1,
          (if cellVal mods r c = MOD_SWAPPING_TRACK then "DSWITCH_" else "ESWITCH_") ++ rest)
          ∈ initPosList board mods mod_nums
      ∧ (0 < cellVal mod_nums r c →
          (r + 1, c + 1, cellVal mod_nums r c) ∈ dswitchList board mods mod_nums)
      ∧ (¬ 0 < cellVal mod_nums r c →
          ∀ k, (r + 1, c + 1, k) ∉ dswitchList board mods mod_nums) := by
  obtain ⟨rest, hrest, hD, hE⟩ := switch_token_inv htt hsw
  have hcell : processCell r c (cellVal board r c) (cellVal mods r c) (cellVal mod_nums r c) =
      (some (r + 1, c + 1,
        (if cellVal mods r c = MOD_SWAPPING_TRACK then "DSWITCH_" else "ESWITCH_") ++ rest),
       if 0 < cellVal mod_nums r c then some (r + 1, c + 1, cellVal mod_nums r c)
       else none) := by
    rcases hmod with h5 | h7
    · rw [h5]
      unfold processCell
      rw [htt]
      simp [hsw, hD, hE, MOD_TUNNEL, MOD_SWAPPING_TRACK, MOD_SWITCH_RAIL]
    · rw [h7]
      unfold processCell
      rw [htt]
      simp [hsw, hD, hE, MOD_TUNNEL, MOD_SWAPPING_TRACK, MOD_SWITCH_RAIL]
  refine ⟨rest, hrest, ?_, ?_, ?_⟩
  · refine List.mem_filterMap.mpr ⟨(r, c), mem_gridCells.mpr ⟨hr, hc⟩, ?_⟩
    dsimp only
    rw [hcell]
  · intro hn
    refine List.mem_filterMap.mpr ⟨(r, c), mem_gridCells.mpr ⟨hr, hc⟩, ?_⟩
    dsimp only
    rw [hcell]
    simp [hn]
  · intro hn k hk
    obtain ⟨⟨r2, c2⟩, hmem2, heq⟩ := List.mem_filterMap.mp hk
    dsimp only at heq
    obtain ⟨h1, h2⟩ := processCell_snd_shape heq
    dsimp only at h1 h2
    obtain rfl : r2 = r := by omega
    obtain rfl : c2 = c := by omega
    rw [hcell] at heq
    simp [hn] at heq

/-- Witness for claim C4, at the spec's own example: board code 9 with
modifier 5 and group ID 2 at cell `(0, 0)`. -/
theorem claim_C4_witness :
    ∃ rest, "SWITCH_L_R_D" = "SWITCH_" ++ rest
      ∧ (1, 1, "DSWITCH_" ++ rest) ∈ initPosList [[9]] [[5]] [[2]]
      ∧ ((0 : Int) < 2 → (1, 1, (2 : Int)) ∈ dswitchList [[9]] [[5]] [[2]])
      ∧ (¬ (0 : Int) < 2 → ∀ k, (1, 1, k) ∉ dswitchList [[9]] [[5]] [[2]]) :=
  claim_C4 [[9]] [[5]] [[2]] 0 0 "SWITCH_L_R_D" (by decide) (by decide)
    (Or.inl (by decide)) (by decide) (by decide)

/-- Claim C5: a tunnel group contributes no record exactly when its
endpoint count differs from two (zero, one, or three-plus endpoints are
silently dropped; exactly two yield the one record), and the emitted
list is precisely one record per contributing group in ascending ID
order. -/
theorem claim_C5 (board mods mod_nums : List (List Int)) (k : Int) :
    (pairRecord board mods mod_nums k = none ↔
      (tunnelEndpoints board mods mod_nums k).length ≠ 2)
    ∧ tunnelPairs board mods mod_nums =
        (tunnelKeys board mods mod_nums).filterMap (pairRecord board mods mod_nums) := by
  refine ⟨?_, rfl⟩
  unfold pairRecord
  cases he : tunnelEndpoints board mods mod_nums k with
  | nil => simp [he]
  | cons a tail =>
    cases tail with
    | nil =>
      obtain ⟨⟨r1, c1⟩, v1⟩ := a
      simp [he]
    | cons b tail2 =>
      cases tail2 with
      | nil =>
        obtain ⟨⟨r1, c1⟩, v1⟩ := a
        obtain ⟨⟨r2, c2⟩, v2⟩ := b
        simp [he]
      | cons d tail3 =>
        simp [he]

/-- Claim C6: a non-tunnel cell whose board code maps explicitly to null
or has no entry in the translation table contributes no entry to the
initial-placement list (null-mapped and unmapped codes are skipped
alike; the embedding is total, so no error arises). -/
theorem claim_C6 (board mods mod_nums : List (List Int)) (r c : Nat)
    (hr : r < board.length) (hc : c < (board.getD r []).length)
    (hmod : cellVal mods r c ≠ MOD_TUNNEL)
    (hnull : BOARD_TO_TRACK (cellVal board r c) = some none ∨
      BOARD_TO_TRACK (cellVal board r c) = none) :
    ∀ s, (r + 1, c + 1, s) ∉ initPosList board mods mod_nums := by
  have hjoin : (BOARD_TO_TRACK (cellVal board r c)).join = none := by
    rcases hnull with h | h <;> rw [h] <;> rfl
  intro s hk
  obtain ⟨⟨r2, c2⟩, hmem2, heq⟩ := List.mem_filterMap.mp hk
  dsimp only at heq
  obtain ⟨h1, h2⟩ := processCell_fst_shape heq
  dsimp only at h1 h2
  obtain rfl : r2 = r := by omega
  obtain rfl : c2 = c := by omega
  rw [processCell_fst_none hjoin] at heq
  exact Option.noConfusion heq

/-- Witness for claim C6, at a level whose cell `(0, 0)` holds code 0
(explicit null mapping). -/
theorem claim_C6_witness :
    (1, 1, "STRAIGHT_RL") ∉ initPosList [[0, 23]] [[0, 0]] [[0, 0]] :=
  claim_C6 [[0, 23]] [[0, 0]] [[0, 0]] 0 0 (by decide) (by decide) (by decide)
    (Or.inl (by decide)) "STRAIGHT_RL"

/-- Claim C7: when every NORMAL/DECOY car direction is translatable, the
collected trains are exactly the NORMAL cars and the decoys exactly the
DECOY cars, in input order, as 1-based positions with translated
directions (UP becomes TOP; RIGHT, LEFT, DOWN unchanged); other kinds
contribute to neither list. -/
theorem claim_C7 (cars : List Car)
    (h : ∀ car ∈ cars, (car.type = "NORMAL" ∨ car.type = "DECOY") →
      (DIRECTION_MAP car.direction).isSome = true) :
    collectCars cars = .ok (specTrains cars, specDecoys cars)
    ∧ DIRECTION_MAP "UP" = some "TOP"
    ∧ DIRECTION_MAP "RIGHT" = some "RIGHT"
    ∧ DIRECTION_MAP "LEFT" = some "LEFT"
    ∧ DIRECTION_MAP "DOWN" = some "DOWN" :=
  ⟨collectCars_eq_ok cars h, by decide, by decide, by decide, by decide⟩

/-- Witness for claim C7, at a concrete car list with one NORMAL car, one
DECOY car and one car of another kind. -/
theorem claim_C7_witness :
    collectCars [⟨"NORMAL", (0, 0), "UP"⟩, ⟨"DECOY", (1, 2), "LEFT"⟩,
        ⟨"CRASHED", (2, 2), "NOPE"⟩]
      = .ok (specTrains [⟨"NORMAL", (0, 0), "UP"⟩, ⟨"DECOY", (1, 2), "LEFT"⟩,
          ⟨"CRASHED", (2, 2), "NOPE"⟩],
        specDecoys [⟨"NORMAL", (0, 0), "UP"⟩, ⟨"DECOY", (1, 2), "LEFT"⟩,
          ⟨"CRASHED", (2, 2), "NOPE"⟩])
    ∧ DIRECTION_MAP "UP" = some "TOP"
    ∧ DIRECTION_MAP "RIGHT" = some "RIGHT"
    ∧ DIRECTION_MAP "LEFT" = some "LEFT"
    ∧ DIRECTION_MAP "DOWN" = some "DOWN" :=
  claim_C7 [⟨"NORMAL", (0, 0), "UP"⟩, ⟨"DECOY", (1, 2), "LEFT"⟩,
    ⟨"CRASHED", (2, 2), "NOPE"⟩] (by decide)

/-- Claim C8: converting the 1×1 level `[[3]]` with zero mods, one track
and no cars succeeds, with target `(1,1)`, empty trains and decoys, and
`(1,1,STRAIGHT_RL)` placed. -/
theorem claim_C8 :
    ∃ out, convert_level "1-1" ⟨[[3]], [[0]], [[0]], [], 1⟩ = .ok out
      ∧ out.target = (1, 1) ∧ out.trains = [] ∧ out.decoys = []
      ∧ (1, 1, "STRAIGHT_RL") ∈ out.init_pos :=
  ⟨{ W := 1, H := 1, tracks := 1, target := (1, 1), trains := [], decoys := [],
     init_pos := [(1, 1, "STRAIGHT_RL")], tunnel_pairs := [], gates := [],
     activations := [], dswitches := [], stations := [] },
   rfl, rfl, rfl, rfl, by decide⟩

/-- Claim C9: the conversion is a pure function of its input — equal
level inputs produce equal output strings. -/
theorem claim_C9 (level_name : String) (l1 l2 : Level) (h : l1 = l2) :
    convertLevelStr level_name l1 = convertLevelStr level_name l2 := by
  rw [h]

/-- Witness for claim C9, at a concrete level. -/
theorem claim_C9_witness :
    convertLevelStr "1-1" ⟨[[3]], [[0]], [[0]], [], 1⟩ =
      convertLevelStr "1-1" ⟨[[3]], [[0]], [[0]], [], 1⟩ :=
  claim_C9 "1-1" ⟨[[3]], [[0]], [[0]], [], 1⟩ ⟨[[3]], [[0]], [[0]], [], 1⟩ rfl

/-- Claim C10: a NORMAL or DECOY car whose direction is not a key of the
direction table makes the car-collection step fail (the failed lookup),
hence the whole conversion fails, the level produces no output and the
batch continues with the remaining levels. -/
theorem claim_C10 (level_name : String) (l : Level) (car : Car)
    (hmem : car ∈ l.cars)
    (ht : car.type = "NORMAL" ∨ car.type = "DECOY")
    (hd : DIRECTION_MAP car.direction = none) :
    (∃ e, collectCars l.cars = .error e)
    ∧ (∃ e, convert_level level_name l = .error e)
    ∧ ∀ rest, processLevels ((level_name, l) :: rest) = processLevels rest := by
  obtain ⟨e, he⟩ := collectCars_isError l.cars car hmem ht hd
  have herr : ∃ e2, convert_level level_name l = .error e2 := by
    unfold convert_level
    cases hft : findTarget l.board with
    | none => exact ⟨_, rfl⟩
    | some t =>
      rw [he]
      exact ⟨e, rfl⟩
  exact ⟨⟨e, he⟩, herr, fun rest => processLevels_skip level_name l rest herr⟩

/-- Witness for claim C10, at a level whose single NORMAL car has the
unknown direction string NORTH. -/
theorem claim_C10_witness :
    (∃ e, collectCars [⟨"NORMAL", (0, 0), "NORTH"⟩] = .error e)
    ∧ (∃ e, convert_level "9-7" ⟨[[3]], [[0]], [[0]], [⟨"NORMAL", (0, 0), "NORTH"⟩], 1⟩
        = .error e)
    ∧ ∀ rest, processLevels (("9-7",
        (⟨[[3]], [[0]], [[0]], [⟨"NORMAL", (0, 0), "NORTH"⟩], 1⟩ : Level)) :: rest)
        = processLevels rest :=
  claim_C10 "9-7" ⟨[[3]], [[0]], [[0]], [⟨"NORMAL", (0, 0), "NORTH"⟩], 1⟩
    ⟨"NORMAL", (0, 0), "NORTH"⟩ (by decide) (Or.inl rfl) (by decide)

end Railbound
